import Mathlib

/-!
Shallow embedding of the NMHomeControl session authority, access-control
service, authorization pipeline, connection hub and client reconnect logic,
with theorems checking the specification's claims against the code.

Time is modelled as milliseconds since the epoch (`Nat`); the JavaScript
comparison `new Date(expiresAt) < new Date()` becomes `expiresAt < now`.
JavaScript `Map`s become association lists with `Map.set` overwrite
semantics; SQLite tables become lists of row structures.
-/

namespace NMHome

/-- Association-list lookup, mirroring JavaScript `Map.get`. -/
def mapGet {α : Type} (m : List (String × α)) (k : String) : Option α :=
  (m.find? (fun p => p.1 == k)).map (·.2)

/-- Association-list insert-or-overwrite, mirroring JavaScript `Map.set`. -/
def mapSet {α : Type} (m : List (String × α)) (k : String) (v : α) :
    List (String × α) :=
  if m.any (fun p => p.1 == k) then
    m.map (fun p => if p.1 == k then (k, v) else p)
  else
    m ++ [(k, v)]

/-- Association-list removal, mirroring JavaScript `Map.delete`. -/
def mapDel {α : Type} (m : List (String × α)) (k : String) :
    List (String × α) :=
  m.filter (fun p => p.1 != k)

/-- Session object from session.service.ts. The TypeScript field
`isDemoMode?: boolean` is optional, hence `Option Bool`: sessions read back
from the durable `sessions` table carry no flag at all (`none`). -/
structure Session where
  id : String
  userId : String
  expiresAt : Nat
  createdAt : Nat
  isDemoMode : Option Bool
deriving Repr, DecidableEq

/-- Row of the durable `sessions` table (id, user_id, expires_at,
created_at); the schema has no demo-mode column. -/
structure DbSessionRow where
  id : String
  userId : String
  expiresAt : Nat
  createdAt : Nat
deriving Repr, DecidableEq

/-- State of the session authority: the in-memory `demoSessions` Map and
the durable `sessions` table. -/
structure SessionState where
  demoSessions : List (String × Session)
  dbSessions : List DbSessionRow
deriving Repr, DecidableEq

/-- SessionService.createSession. The random 32-byte id is passed in as
`sessionId`; `timeoutMinutes` is `config.session.timeoutMinutes`. Demo
sessions go only to the in-memory map, others only to the durable table. -/
def createSession (st : SessionState) (sessionId userId : String)
    (now timeoutMinutes : Nat) (isDemoMode : Bool) : Session × SessionState :=
  let expiresAt := now + timeoutMinutes * 60 * 1000
  let session : Session :=
    { id := sessionId, userId := userId, expiresAt := expiresAt,
      createdAt := now, isDemoMode := some isDemoMode }
  if isDemoMode then
    (session, { st with demoSessions := mapSet st.demoSessions sessionId session })
  else
    (session,
      { st with dbSessions :=
          st.dbSessions ++ [⟨sessionId, userId, expiresAt, now⟩] })

/-- SessionService.deleteSession: demo map first, else the durable table. -/
def deleteSession (st : SessionState) (sessionId : String) : SessionState :=
  if (mapGet st.demoSessions sessionId).isSome then
    { st with demoSessions := mapDel st.demoSessions sessionId }
  else
    { st with dbSessions := st.dbSessions.filter (fun r => r.id != sessionId) }

/-- SessionService.getSession: demo map checked first with on-read expiry
eviction, then the durable table with the same check. The durable SELECT
reads only id, user_id, expires_at, created_at, so the returned session's
`isDemoMode` is `none` in that branch. -/
def getSession (st : SessionState) (now : Nat) (sessionId : String) :
    Option Session × SessionState :=
  match mapGet st.demoSessions sessionId with
  | some demoSession =>
      if demoSession.expiresAt < now then
        (none, { st with demoSessions := mapDel st.demoSessions sessionId })
      else
        (some demoSession, st)
  | none =>
      match st.dbSessions.find? (fun r => r.id == sessionId) with
      | none => (none, st)
      | some row =>
          if row.expiresAt < now then
            (none, deleteSession st sessionId)
          else
            (some ⟨row.id, row.userId, row.expiresAt, row.createdAt, none⟩, st)

/-- SessionService.refreshSession: recompute expiration = now + timeout and
write it to whichever tier holds the session (demo map checked first). -/
def refreshSession (st : SessionState) (now timeoutMinutes : Nat)
    (sessionId : String) : SessionState :=
  let expiresAt := now + timeoutMinutes * 60 * 1000
  match mapGet st.demoSessions sessionId with
  | some s =>
      { st with demoSessions :=
          mapSet st.demoSessions sessionId { s with expiresAt := expiresAt } }
  | none =>
      { st with dbSessions :=
          st.dbSessions.map (fun r =>
            if r.id == sessionId then { r with expiresAt := expiresAt } else r) }

/-- True when the demo tier holds the id. -/
def demoHas (st : SessionState) (sessionId : String) : Bool :=
  (mapGet st.demoSessions sessionId).isSome

/-- True when the durable table holds a row for the id. -/
def dbHas (st : SessionState) (sessionId : String) : Bool :=
  (st.dbSessions.find? (fun r => r.id == sessionId)).isSome

/-- Stored expiration of the session, demo tier first (as getSession reads). -/
def sessionExpiry (st : SessionState) (sessionId : String) : Option Nat :=
  match mapGet st.demoSessions sessionId with
  | some s => some s.expiresAt
  | none => (st.dbSessions.find? (fun r => r.id == sessionId)).map (·.expiresAt)

/-- Resolution `session.isDemoMode || false` used by auth.middleware.ts and
the websocket connection handler. -/
def resolveDemoFlag (s : Session) : Bool :=
  s.isDemoMode.getD false

/-- Creating a batch of ephemeral sessions (id, userId pairs), as in the
spec's "creating N ephemeral sessions" scenario. -/
def createEphemeralMany (st : SessionState) (now timeoutMinutes : Nat)
    (xs : List (String × String)) : SessionState :=
  xs.foldl (fun s p => (createSession s p.1 p.2 now timeoutMinutes true).2) st

/-- Resource kinds of the access_control table
(CHECK(resource_type IN ('device', 'room'))). -/
inductive ResourceType where
  | device
  | room
deriving Repr, DecidableEq

/-- Row of the access_control table. -/
structure AccessControl where
  id : String
  userId : String
  resourceType : ResourceType
  resourceId : String
  createdAt : Nat
deriving Repr, DecidableEq

/-- True when the row would violate a uniqueness constraint against `e`:
the PRIMARY KEY on id or UNIQUE(user_id, resource_type, resource_id). -/
def aclConflicts (e row : AccessControl) : Bool :=
  e.id == row.id ||
    (e.userId == row.userId && e.resourceType == row.resourceType &&
      e.resourceId == row.resourceId)

/-- ACLService.grantAccess: INSERT OR IGNORE, so a row conflicting with the
PRIMARY KEY or the UNIQUE(user_id, resource_type, resource_id) constraint
is silently not inserted. -/
def grantAccess (tbl : List AccessControl) (aclId userId : String)
    (resourceType : ResourceType) (resourceId : String) (now : Nat) :
    List AccessControl :=
  let row : AccessControl := ⟨aclId, userId, resourceType, resourceId, now⟩
  if tbl.any (fun e => aclConflicts e row) then tbl else tbl ++ [row]

/-- ACLService.revokeAccess: DELETE every row matching the tuple; deleting
nothing is not an error. -/
def revokeAccess (tbl : List AccessControl) (userId : String)
    (resourceType : ResourceType) (resourceId : String) : List AccessControl :=
  tbl.filter (fun e =>
    !(e.userId == userId && e.resourceType == resourceType &&
      e.resourceId == resourceId))

/-- ACLService.hasAccess: existence check on the exact
(user, resource_type, resource_id) tuple. -/
def hasAccess (tbl : List AccessControl) (userId : String)
    (resourceType : ResourceType) (resourceId : String) : Bool :=
  tbl.any (fun e =>
    e.userId == userId && e.resourceType == resourceType &&
      e.resourceId == resourceId)

/-- Number of access_control rows for one (user, kind, resource) tuple. -/
def aclCount (tbl : List AccessControl) (userId : String)
    (resourceType : ResourceType) (resourceId : String) : Nat :=
  (tbl.filter (fun e =>
    e.userId == userId && e.resourceType == resourceType &&
      e.resourceId == resourceId)).length

/-- ACLService.getAccessibleDeviceIds. -/
def getAccessibleDeviceIds (tbl : List AccessControl) (userId : String) :
    List String :=
  (tbl.filter (fun e => e.userId == userId && e.resourceType == .device)).map
    (·.resourceId)

/-- ACLService.getAccessibleRoomIds. -/
def getAccessibleRoomIds (tbl : List AccessControl) (userId : String) :
    List String :=
  (tbl.filter (fun e => e.userId == userId && e.resourceType == .room)).map
    (·.resourceId)

/-- Role strings 'admin' | 'user'. -/
inductive Role where
  | admin
  | user
deriving Repr, DecidableEq

/-- The resolved request user attached by auth.middleware.ts. -/
structure ReqUser where
  id : String
  username : String
  role : Role
  firstLogin : Bool
deriving Repr, DecidableEq

/-- A Fastify reply sent by a gate of the authorization pipeline:
a status code, an error string, and the optional
`requiresPasswordChange` body field (present only on the first-login
rejection). -/
structure Reply where
  code : Nat
  error : String
  requiresPasswordChange : Option Bool
deriving Repr, DecidableEq

/-- deviceACLMiddleware: demo mode passes, admins pass, a direct device
grant passes; otherwise reply 403 "Access denied" (room-based access is an
unimplemented TODO in the source). `none` means the gate lets the request
fall through to the handler. -/
def deviceACLMiddleware (isDemoMode : Bool) (user : ReqUser)
    (deviceId : String) (tbl : List AccessControl) : Option Reply :=
  if isDemoMode then none
  else if user.role == .admin then none
  else if hasAccess tbl user.id .device deviceId then none
  else some ⟨403, "Access denied", none⟩

/-- Device object as consumed by filterDevicesByACL (deviceId plus an
optional roomId). -/
structure Device where
  deviceId : String
  roomId : Option String
deriving Repr, DecidableEq

/-- filterDevicesByACL: admins and the demo user see all devices; otherwise
keep a device on a direct device grant or on a room grant for its roomId. -/
def filterDevicesByACL (devices : List Device) (userId : String)
    (userRole : Role) (tbl : List AccessControl) : List Device :=
  if userRole == .admin || userId == "demo-user-id" then devices
  else
    let accessibleDeviceIds := getAccessibleDeviceIds tbl userId
    let accessibleRoomIds := getAccessibleRoomIds tbl userId
    devices.filter (fun device =>
      accessibleDeviceIds.contains device.deviceId ||
        (match device.roomId with
         | some r => accessibleRoomIds.contains r
         | none => false))

/-- firstLoginMiddleware: reject with 403 and `requiresPasswordChange: true`
when the resolved user's firstLogin flag is set and the request URL is not
the password-change endpoint. -/
def firstLoginMiddleware (user : Option ReqUser) (url : String) :
    Option Reply :=
  match user with
  | some u =>
      if u.firstLogin && url != "/api/auth/change-password" then
        some ⟨403, "Password change required", some true⟩
      else none
  | none => none

/-- A Fastify preHandler chain: the protected handler runs exactly when no
gate sent a reply (each gate that replies short-circuits the request). -/
def handlerInvoked (gates : List (Option Reply)) : Bool :=
  gates.all (·.isNone)

/-- Result of a successful authMiddleware pass: the request context fields
it attaches. -/
structure AuthCtx where
  user : ReqUser
  sessionId : String
  isDemoMode : Bool
deriving Repr, DecidableEq

/-- authMiddleware: cookie lookup, session lookup with expiry, demo-user
synthesis or user-table lookup, then session refresh and context attach.
Every rejection it produces carries status 401. -/
def authMiddleware (cookieSessionId : Option String) (users : List ReqUser)
    (st : SessionState) (now timeoutMinutes : Nat) :
    (Reply ⊕ AuthCtx) × SessionState :=
  match cookieSessionId with
  | none => (Sum.inl ⟨401, "Not authenticated", none⟩, st)
  | some sessionId =>
      match getSession st now sessionId with
      | (none, st1) => (Sum.inl ⟨401, "Invalid or expired session", none⟩, st1)
      | (some session, st1) =>
          if resolveDemoFlag session && session.userId == "demo-user-id" then
            (Sum.inr ⟨⟨"demo-user-id", "demo", .user, false⟩, sessionId,
                resolveDemoFlag session⟩,
              refreshSession st1 now timeoutMinutes sessionId)
          else
            match users.find? (fun u => u.id == session.userId) with
            | none => (Sum.inl ⟨401, "User not found", none⟩, st1)
            | some user =>
                (Sum.inr ⟨user, sessionId, resolveDemoFlag session⟩,
                  refreshSession st1 now timeoutMinutes sessionId)

/-- WebSocket readyState constants of the ws library. -/
inductive ReadyState where
  | CONNECTING
  | OPEN
  | CLOSING
  | CLOSED
deriving Repr, DecidableEq

/-- An AuthenticatedWebSocket as the hub sees it after a successful
handshake. `cid` identifies the underlying transport object. -/
structure Conn where
  cid : Nat
  userId : String
  username : String
  isAlive : Bool
  isDemoMode : Bool
  readyState : ReadyState
deriving Repr, DecidableEq

/-- State of the connection hub: the server's client set (`wss.clients`)
and the per-user registry (`clients: Map<string, Set<ws>>`, modelled by
connection ids). -/
structure HubState where
  conns : List Conn
  clients : List (String × List Nat)
deriving Repr, DecidableEq

/-- Connection handler after successful session authentication: attach
`isDemoMode = session.isDemoMode || false`, mark alive, and add the
connection to the per-user registry. -/
def registerConn (st : HubState) (cid : Nat) (session : Session)
    (username : String) : HubState :=
  let conn : Conn :=
    ⟨cid, session.userId, username, true, resolveDemoFlag session, .OPEN⟩
  { conns := st.conns ++ [conn],
    clients :=
      match mapGet st.clients session.userId with
      | none => mapSet st.clients session.userId [cid]
      | some cids => mapSet st.clients session.userId (cids ++ [cid]) }

/-- Close handler: remove the connection from the user's registry set and
drop the user's entry when it becomes empty. The transport library also
removes the socket from `wss.clients`. -/
def closeConn (st : HubState) (cid : Nat) (userId : String) : HubState :=
  { conns := st.conns.filter (fun c => c.cid != cid),
    clients :=
      match mapGet st.clients userId with
      | none => st.clients
      | some cids =>
          let remaining := cids.filter (fun x => x != cid)
          if remaining.isEmpty then mapDel st.clients userId
          else mapSet st.clients userId remaining }

/-- Pong handler: re-mark the connection alive. -/
def pongConn (st : HubState) (cid : Nat) : HubState :=
  { st with conns :=
      st.conns.map (fun c => if c.cid == cid then { c with isAlive := true } else c) }

/-- A batch of pong events arriving between two heartbeat sweeps. -/
def pongs (st : HubState) (ps : List Nat) : HubState :=
  ps.foldl pongConn st

/-- Connection ids that answered no probe since the last sweep; the next
sweep terminates exactly these. -/
def deadCids (st : HubState) : List Nat :=
  (st.conns.filter (fun c => !c.isAlive)).map (·.cid)

/-- One heartbeat sweep (startHeartbeat's 30-second interval body): every
connection still marked not-alive is terminated — its close handler removes
it from the registry, dropping a user's entry when it empties — and every
survivor is marked not-alive and pinged. -/
def sweep (st : HubState) : HubState :=
  { conns :=
      (st.conns.filter (fun c => c.isAlive)).map (fun c => { c with isAlive := false }),
    clients :=
      (st.clients.map (fun p =>
        (p.1, p.2.filter (fun cid => !(deadCids st).contains cid)))).filter
        (fun p => !p.2.isEmpty) }

/-- broadcastDeviceUpdate: the device-update event goes exactly to the open
connections whose demo-mode flag equals the broadcast's flag; the result is
the list of connection ids the message was sent to. -/
def broadcastDeviceUpdate (st : HubState) (isDemoMode : Bool) : List Nat :=
  (st.conns.filter (fun c =>
    c.isDemoMode == isDemoMode && c.readyState == .OPEN)).map (·.cid)

/-- broadcastToUser: an absent registry entry means an early return with
zero deliveries; otherwise send to each open connection in the user's set. -/
def broadcastToUser (st : HubState) (userId : String) : List Nat :=
  match mapGet st.clients userId with
  | none => []
  | some cids =>
      cids.filter (fun cid =>
        st.conns.any (fun c => c.cid == cid && c.readyState == .OPEN))

/-- Frontend WebSocketClient reconnect state (websocket.ts). Delays are in
milliseconds as exact rationals (the JavaScript doubles involved are all
dyadic rationals, computed exactly). -/
structure WSClient where
  reconnectAttempts : Nat
  reconnectDelay : ℚ
  shouldReconnect : Bool
deriving Repr, DecidableEq

/-- maxReconnectAttempts = 10. -/
def maxReconnectAttempts : Nat := 10

/-- maxReconnectDelay = 30000 ms. -/
def maxReconnectDelay : ℚ := 30000

/-- Client state as constructed (reconnectAttempts = 0, reconnectDelay =
1000 ms) and as left by the `onopen` reset with shouldReconnect = true. -/
def initialClient : WSClient :=
  { reconnectAttempts := 0, reconnectDelay := 1000, shouldReconnect := true }

/-- scheduleReconnect: give up past maxReconnectAttempts, else increment
the attempt counter first and schedule after
min(reconnectDelay * 1.5 ^ attempts, maxReconnectDelay) — the returned
option is the scheduled delay, `none` when no attempt is scheduled. -/
def scheduleReconnect (c : WSClient) : WSClient × Option ℚ :=
  if !c.shouldReconnect then (c, none)
  else if maxReconnectAttempts ≤ c.reconnectAttempts then (c, none)
  else
    let attempts := c.reconnectAttempts + 1
    let delay := min (c.reconnectDelay * (3 / 2 : ℚ) ^ attempts) maxReconnectDelay
    ({ c with reconnectAttempts := attempts }, some delay)

/-- The `onopen` handler's backoff reset: attempts back to 0, delay back to
1000 ms. -/
def onOpenReset (c : WSClient) : WSClient :=
  { c with reconnectAttempts := 0, reconnectDelay := 1000 }

/-- Client state after n consecutive failed reconnect cycles starting from
the initial state (each cycle's close handler calls scheduleReconnect). -/
def runReconnects : Nat → WSClient
  | 0 => initialClient
  | n + 1 => (scheduleReconnect (runReconnects n)).1

/-- Delay scheduled by the (n+1)-st scheduleReconnect call of a run of
consecutive failures, `none` when the client has given up. -/
def attemptDelay (n : Nat) : Option ℚ :=
  (scheduleReconnect (runReconnects n)).2

section MapLemmas

variable {α β : Type}

lemma mapGet_cons (a : String × α) (t : List (String × α)) (k : String) :
    mapGet (a :: t) k = if a.1 == k then some a.2 else mapGet t k := by
  by_cases h : (a.1 == k) = true
  · simp [mapGet, List.find?_cons_of_pos _ h, h]
  · simp [mapGet, List.find?_cons_of_neg _ h, h]

lemma mapGet_set_self (m : List (String × α)) (k : String) (v : α) :
    mapGet (mapSet m k v) k = some v := by
  unfold mapSet
  by_cases h : m.any (fun p => p.1 == k) = true
  · simp only [h, if_true]
    induction m with
    | nil => simp at h
    | cons a t ih =>
        simp only [List.any_cons, Bool.or_eq_true] at h
        simp only [List.map_cons]
        by_cases ha : (a.1 == k) = true
        · rw [if_pos ha, mapGet_cons]
          simp
        · rw [if_neg ha, mapGet_cons, if_neg ha]
          exact ih (h.resolve_left ha)
  · simp only [h, if_false]
    have h' : m.any (fun p => p.1 == k) = false := Bool.eq_false_iff.mpr h
    have hnone : m.find? (fun p => p.1 == k) = none := by
      rw [List.find?_eq_none]
      exact List.any_eq_false.mp h'
    simp [mapGet, List.find?_append, hnone, List.find?]

lemma mapGet_del_self (m : List (String × α)) (k : String) :
    mapGet (mapDel m k) k = none := by
  unfold mapDel mapGet
  rw [List.find?_filter]
  rw [List.find?_eq_none.mpr]
  · rfl
  · intro x _
    simp only [bne_iff_ne, ne_eq, decide_eq_true_eq, not_and]
    intro hne hbeq
    exact hne (by simpa using hbeq)

lemma mapGet_map_values (m : List (String × α)) (k : String) (g : α → β) :
    mapGet (m.map (fun p => (p.1, g p.2))) k = (mapGet m k).map g := by
  unfold mapGet
  rw [List.find?_map]
  have : ((fun p => p.1 == k) ∘ fun (p : String × α) => (p.1, g p.2)) =
      (fun p => p.1 == k) := rfl
  rw [this]
  cases m.find? (fun p => p.1 == k) <;> rfl

lemma mapGet_filter_none (m : List (String × α)) (k : String)
    (q : String × α → Bool) (h : mapGet m k = none) :
    mapGet (m.filter q) k = none := by
  unfold mapGet at h ⊢
  have hnone : m.find? (fun p => p.1 == k) = none := by
    cases hf : m.find? (fun p => p.1 == k) with
    | none => rfl
    | some x => rw [hf] at h; simp at h
  rw [List.find?_eq_none.mpr]
  · rfl
  · intro x hx
    exact List.find?_eq_none.mp hnone x (List.mem_filter.mp hx).1

lemma mapGet_eq_none_of_not_keys (m : List (String × α)) (k : String)
    (h : ¬ k ∈ m.map (·.1)) : mapGet m k = none := by
  unfold mapGet
  rw [List.find?_eq_none.mpr]
  · rfl
  · intro x hx hbeq
    have hx1 : x.1 = k := by simpa using hbeq
    exact h (List.mem_map.mpr ⟨x, hx, hx1⟩)

lemma mapGet_filter_value_kept (m : List (String × α)) (k : String) (v : α)
    (q : α → Bool) (h : mapGet m k = some v) (hq : q v = true) :
    mapGet (m.filter (fun p => q p.2)) k = some v := by
  induction m with
  | nil => simp [mapGet] at h
  | cons a t ih =>
      rw [mapGet_cons] at h
      by_cases ha : (a.1 == k) = true
      · rw [if_pos ha] at h
        have hav : a.2 = v := by injection h
        rw [List.filter_cons, if_pos (by simpa [hav] using hq)]
        rw [mapGet_cons, if_pos ha, hav]
      · rw [if_neg ha] at h
        rw [List.filter_cons]
        by_cases hqa : q a.2 = true
        · rw [if_pos (by simpa using hqa), mapGet_cons, if_neg ha]
          exact ih h
        · rw [if_neg (by simpa using hqa)]
          exact ih h

lemma mapGet_filter_value_dropped (m : List (String × α)) (k : String) (v : α)
    (q : α → Bool) (hkeys : (m.map (·.1)).Nodup) (h : mapGet m k = some v)
    (hq : q v = false) :
    mapGet (m.filter (fun p => q p.2)) k = none := by
  induction m with
  | nil => simp [mapGet] at h
  | cons a t ih =>
      rw [List.map_cons, List.nodup_cons] at hkeys
      rw [mapGet_cons] at h
      by_cases ha : (a.1 == k) = true
      · rw [if_pos ha] at h
        have hav : a.2 = v := by injection h
        rw [List.filter_cons, if_neg (by simp [hav, hq])]
        have hk : a.1 = k := by simpa using ha
        have htnone : mapGet t k = none := by
          apply mapGet_eq_none_of_not_keys
          rw [← hk]
          exact hkeys.1
        exact mapGet_filter_none t k _ htnone
      · rw [if_neg ha] at h
        rw [List.filter_cons]
        by_cases hqa : q a.2 = true
        · rw [if_pos (by simpa using hqa), mapGet_cons, if_neg ha]
          exact ih hkeys.2 h
        · rw [if_neg (by simpa using hqa)]
          exact ih hkeys.2 h

end MapLemmas

section SessionLemmas

lemma createSession_true_demoSessions (st : SessionState) (sid uid : String)
    (now t : Nat) :
    (createSession st sid uid now t true).2.demoSessions =
      mapSet st.demoSessions sid
        ⟨sid, uid, now + t * 60 * 1000, now, some true⟩ := rfl

lemma createSession_true_dbSessions (st : SessionState) (sid uid : String)
    (now t : Nat) :
    (createSession st sid uid now t true).2.dbSessions = st.dbSessions := rfl

lemma createSession_false_dbSessions (st : SessionState) (sid uid : String)
    (now t : Nat) :
    (createSession st sid uid now t false).2.dbSessions =
      st.dbSessions ++ [⟨sid, uid, now + t * 60 * 1000, now⟩] := rfl

lemma createSession_false_demoSessions (st : SessionState) (sid uid : String)
    (now t : Nat) :
    (createSession st sid uid now t false).2.demoSessions =
      st.demoSessions := rfl

lemma createEphemeralMany_dbSessions (now t : Nat)
    (xs : List (String × String)) :
    ∀ st : SessionState,
      (createEphemeralMany st now t xs).dbSessions = st.dbSessions := by
  induction xs with
  | nil => intro st; rfl
  | cons p rest ih =>
      intro st
      show (createEphemeralMany
        (createSession st p.1 p.2 now t true).2 now t rest).dbSessions = _
      rw [ih, createSession_true_dbSessions]

lemma dbFind_update (rows : List DbSessionRow) (sid : String) (E : Nat) :
    (rows.map (fun r => if r.id == sid then { r with expiresAt := E } else r)).find?
        (fun r => r.id == sid) =
      (rows.find? (fun r => r.id == sid)).map
        (fun r => { r with expiresAt := E }) := by
  rw [List.find?_map]
  have hp : ((fun r : DbSessionRow => r.id == sid) ∘
      (fun r => if r.id == sid then { r with expiresAt := E } else r)) =
      (fun r : DbSessionRow => r.id == sid) := by
    funext r
    simp only [Function.comp]
    split <;> rfl
  rw [hp]
  cases hr : rows.find? (fun r => r.id == sid) with
  | none => rfl
  | some r =>
      have hpr := List.find?_some hr
      simp only [Option.map_some']
      rw [if_pos hpr]

lemma dbFind_append_fresh (rows : List DbSessionRow) (row0 : DbSessionRow)
    (sid : String) (h : rows.find? (fun r => r.id == sid) = none) :
    (rows ++ [row0]).find? (fun r => r.id == sid) =
      if row0.id == sid then some row0 else none := by
  rw [List.find?_append, h]
  by_cases h0 : (row0.id == sid) = true
  · simp [List.find?, h0]
  · simp [List.find?, h0]

end SessionLemmas

/-- Claim C2: a session created with the ephemeral flag is written only to
the in-memory tier; after creating any number of ephemeral sessions the
durable sessions table is unchanged, so it holds zero rows for any of the
new session ids. -/
theorem C2_ephemeral_never_durable (st : SessionState) (now t : Nat)
    (xs : List (String × String)) :
    (createEphemeralMany st now t xs).dbSessions = st.dbSessions ∧
    (∀ p ∈ xs, dbHas st p.1 = false →
      dbHas (createEphemeralMany st now t xs) p.1 = false) := by
  refine ⟨createEphemeralMany_dbSessions now t xs st, ?_⟩
  intro p _ hfresh
  unfold dbHas at hfresh ⊢
  rw [createEphemeralMany_dbSessions]
  exact hfresh

/-- Witness for C2 at a concrete state: two ephemeral sessions leave the
durable table empty. -/
theorem C2_witness :
    (createEphemeralMany ⟨[], []⟩ 0 30 [("s1", "demo-user-id"), ("s2", "demo-user-id")]).dbSessions
        = ([] : List DbSessionRow) ∧
    dbHas (createEphemeralMany ⟨[], []⟩ 0 30 [("s1", "demo-user-id"), ("s2", "demo-user-id")]) "s1"
        = false :=
  ⟨(C2_ephemeral_never_durable ⟨[], []⟩ 0 30 _).1,
   (C2_ephemeral_never_durable ⟨[], []⟩ 0 30 _).2 ("s1", "demo-user-id")
     (by decide) (by decide)⟩

/-- Claim C10: a session returned with a true ephemeral flag must come from
the in-memory tier — the durable read selects no demo-mode column, so a
session served from the durable table has `isDemoMode = none` and every
consumer's `session.isDemoMode || false` resolution yields false. -/
theorem C10_durable_sessions_production_mode (st : SessionState) (now : Nat)
    (sid : String) (s : Session) (h : (getSession st now sid).1 = some s) :
    (resolveDemoFlag s = true → demoHas st sid = true) ∧
    (demoHas st sid = false → s.isDemoMode = none ∧ resolveDemoFlag s = false) := by
  unfold getSession at h
  split at h
  next d hm =>
    refine ⟨fun _ => ?_, fun hfalse => ?_⟩
    · simp [demoHas, hm]
    · simp [demoHas, hm] at hfalse
  next hm =>
    split at h
    next hf => simp at h
    next row hf =>
      split at h
      · simp at h
      · have hs : s = ⟨row.id, row.userId, row.expiresAt, row.createdAt, none⟩ := by
          simp only [Option.some.injEq] at h
          exact h.symm
        subst hs
        refine ⟨fun habs => ?_, fun _ => ⟨rfl, rfl⟩⟩
        simp [resolveDemoFlag] at habs

lemma demoHas_false_iff (st : SessionState) (sid : String) :
    demoHas st sid = false ↔ mapGet st.demoSessions sid = none := by
  unfold demoHas
  cases mapGet st.demoSessions sid <;> simp

lemma dbHas_false_iff (st : SessionState) (sid : String) :
    dbHas st sid = false ↔
      st.dbSessions.find? (fun r => r.id == sid) = none := by
  unfold dbHas
  cases st.dbSessions.find? (fun r => r.id == sid) <;> simp

/-- Claim C5: reading an expired session returns absent and deletes the
record from its tier as a side effect; any later read of the same id is
also absent. -/
theorem C5_expired_get_is_permanent_eviction (st : SessionState) (sid : String)
    (now now2 e : Nat) (hexp : sessionExpiry st sid = some e) (he : e < now)
    (honce : ¬(demoHas st sid = true ∧ dbHas st sid = true)) :
    (getSession st now sid).1 = none ∧
    demoHas (getSession st now sid).2 sid = false ∧
    dbHas (getSession st now sid).2 sid = false ∧
    (getSession (getSession st now sid).2 now2 sid).1 = none := by
  cases hm : mapGet st.demoSessions sid with
  | some d =>
      have hde : d.expiresAt = e := by
        simp only [sessionExpiry, hm] at hexp
        injection hexp
      have hlt : d.expiresAt < now := hde ▸ he
      have hdbf : dbHas st sid = false := by
        cases hdbv : dbHas st sid with
        | false => rfl
        | true => exact absurd ⟨by simp [demoHas, hm], hdbv⟩ honce
      have hget : getSession st now sid =
          (none, { st with demoSessions := mapDel st.demoSessions sid }) := by
        simp only [getSession, hm, if_pos hlt]
      rw [hget]
      refine ⟨rfl, ?_, ?_, ?_⟩
      · simp [demoHas, mapGet_del_self]
      · exact (dbHas_false_iff _ _).mpr ((dbHas_false_iff st sid).mp hdbf)
      · simp only [getSession, mapGet_del_self]
        rw [(dbHas_false_iff st sid).mp hdbf]
  | none =>
      obtain ⟨row, hf, hre⟩ :
          ∃ row, st.dbSessions.find? (fun r => r.id == sid) = some row ∧
            row.expiresAt = e := by
        simp only [sessionExpiry, hm] at hexp
        cases hfv : st.dbSessions.find? (fun r => r.id == sid) with
        | none => rw [hfv] at hexp; simp at hexp
        | some r =>
            rw [hfv] at hexp
            exact ⟨r, rfl, by injection hexp⟩
      have hlt : row.expiresAt < now := hre ▸ he
      have hdel : deleteSession st sid =
          { st with dbSessions := st.dbSessions.filter (fun r => r.id != sid) } := by
        simp only [deleteSession, hm, Option.isSome_none, Bool.false_eq_true,
          if_false]
      have hget : getSession st now sid = (none, deleteSession st sid) := by
        simp only [getSession, hm, hf, if_pos hlt]
      have hfilter : (st.dbSessions.filter (fun r => r.id != sid)).find?
          (fun r => r.id == sid) = none := by
        rw [List.find?_eq_none]
        intro x hx
        have := (List.mem_filter.mp hx).2
        simp only [bne_iff_ne, ne_eq] at this
        simp [this]
      rw [hget, hdel]
      refine ⟨rfl, ?_, ?_, ?_⟩
      · simp [demoHas, hm]
      · simp [dbHas, hfilter]
      · simp only [getSession, hm, hfilter]

/-- Witness for C5: an expired durable session is evicted on read. -/
theorem C5_witness :
    (getSession ⟨[], [⟨"sid", "u", 100, 0⟩]⟩ 200 "sid").1 = none ∧
    demoHas (getSession ⟨[], [⟨"sid", "u", 100, 0⟩]⟩ 200 "sid").2 "sid" = false ∧
    dbHas (getSession ⟨[], [⟨"sid", "u", 100, 0⟩]⟩ 200 "sid").2 "sid" = false ∧
    (getSession (getSession ⟨[], [⟨"sid", "u", 100, 0⟩]⟩ 200 "sid").2 500 "sid").1 = none :=
  C5_expired_get_is_permanent_eviction ⟨[], [⟨"sid", "u", 100, 0⟩]⟩ "sid" 200 500 100
    (by decide) (by decide) (by decide)

/-- Claim C4: refresh recomputes expiration = now + timeout in whichever
tier holds the session, giving sliding lifetime: with a 30-minute timeout,
a session created at T0 and refreshed at T0+20m has stored expiration
T0+50m, so get succeeds at T0+45m and fails at T0+51m. -/
theorem C4_refresh_slides_expiration (st : SessionState) (sid uid : String)
    (T0 : Nat) (b : Bool) (hdemo : demoHas st sid = false)
    (hdb : dbHas st sid = false) :
    sessionExpiry (refreshSession (createSession st sid uid T0 30 b).2
        (T0 + 20 * 60000) 30 sid) sid = some (T0 + 50 * 60000) ∧
    (getSession (refreshSession (createSession st sid uid T0 30 b).2
        (T0 + 20 * 60000) 30 sid) (T0 + 45 * 60000) sid).1.isSome = true ∧
    (getSession (refreshSession (createSession st sid uid T0 30 b).2
        (T0 + 20 * 60000) 30 sid) (T0 + 51 * 60000) sid).1 = none := by
  have hmge : mapGet st.demoSessions sid = none := (demoHas_false_iff st sid).mp hdemo
  have hfind : st.dbSessions.find? (fun r => r.id == sid) = none :=
    (dbHas_false_iff st sid).mp hdb
  cases b with
  | true =>
      have hset : mapGet (createSession st sid uid T0 30 true).2.demoSessions sid =
          some ⟨sid, uid, T0 + 30 * 60 * 1000, T0, some true⟩ := by
        rw [createSession_true_demoSessions]
        exact mapGet_set_self _ _ _
      have hrefresh : refreshSession (createSession st sid uid T0 30 true).2
          (T0 + 20 * 60000) 30 sid =
          { (createSession st sid uid T0 30 true).2 with
            demoSessions := mapSet (createSession st sid uid T0 30 true).2.demoSessions sid
              ⟨sid, uid, T0 + 20 * 60000 + 30 * 60 * 1000, T0, some true⟩ } := by
        simp only [refreshSession, hset]
      have hget2 : mapGet (refreshSession (createSession st sid uid T0 30 true).2
          (T0 + 20 * 60000) 30 sid).demoSessions sid =
          some ⟨sid, uid, T0 + 20 * 60000 + 30 * 60 * 1000, T0, some true⟩ := by
        rw [hrefresh]
        exact mapGet_set_self _ _ _
      refine ⟨?_, ?_, ?_⟩
      · have hval : sessionExpiry (refreshSession (createSession st sid uid T0 30 true).2
            (T0 + 20 * 60000) 30 sid) sid =
            some (T0 + 20 * 60000 + 30 * 60 * 1000) := by
          unfold sessionExpiry
          rw [hget2]
        exact hval.trans (congrArg some (by omega))
      · simp only [getSession, hget2]
        rw [if_neg (by omega)]
        rfl
      · simp only [getSession, hget2]
        rw [if_pos (by omega)]
  | false =>
      have hdemo1 : (createSession st sid uid T0 30 false).2.demoSessions =
          st.demoSessions := createSession_false_demoSessions st sid uid T0 30
      have hrefresh : refreshSession (createSession st sid uid T0 30 false).2
          (T0 + 20 * 60000) 30 sid =
          { (createSession st sid uid T0 30 false).2 with
            dbSessions := (createSession st sid uid T0 30 false).2.dbSessions.map
              (fun r => if r.id == sid then
                { r with expiresAt := T0 + 20 * 60000 + 30 * 60 * 1000 } else r) } := by
        simp only [refreshSession, hdemo1, hmge]
      have hfind2 : (refreshSession (createSession st sid uid T0 30 false).2
          (T0 + 20 * 60000) 30 sid).dbSessions.find? (fun r => r.id == sid) =
          some ⟨sid, uid, T0 + 20 * 60000 + 30 * 60 * 1000, T0⟩ := by
        rw [hrefresh]
        simp only [createSession_false_dbSessions]
        rw [dbFind_update, dbFind_append_fresh _ _ _ hfind]
        simp
      have hdemo2 : mapGet (refreshSession (createSession st sid uid T0 30 false).2
          (T0 + 20 * 60000) 30 sid).demoSessions sid = none := by
        rw [hrefresh]
        simpa only [hdemo1] using hmge
      refine ⟨?_, ?_, ?_⟩
      · have hval : sessionExpiry (refreshSession (createSession st sid uid T0 30 false).2
            (T0 + 20 * 60000) 30 sid) sid =
            some (T0 + 20 * 60000 + 30 * 60 * 1000) := by
          unfold sessionExpiry
          rw [hdemo2, hfind2]
          rfl
        exact hval.trans (congrArg some (by omega))
      · simp only [getSession, hdemo2, hfind2]
        rw [if_neg (by omega)]
        rfl
      · simp only [getSession, hdemo2, hfind2]
        rw [if_pos (by omega)]

/-- Witness for C4: the scenario run in the durable tier from the empty
state with T0 = 0. -/
theorem C4_witness :
    sessionExpiry (refreshSession (createSession ⟨[], []⟩ "sid" "u" 0 30 false).2
        (0 + 20 * 60000) 30 "sid") "sid" = some (0 + 50 * 60000) ∧
    (getSession (refreshSession (createSession ⟨[], []⟩ "sid" "u" 0 30 false).2
        (0 + 20 * 60000) 30 "sid") (0 + 45 * 60000) "sid").1.isSome = true ∧
    (getSession (refreshSession (createSession ⟨[], []⟩ "sid" "u" 0 30 false).2
        (0 + 20 * 60000) 30 "sid") (0 + 51 * 60000) "sid").1 = none :=
  C4_refresh_slides_expiration ⟨[], []⟩ "sid" "u" 0 false (by decide) (by decide)

/-- Witness for C10 at a concrete durable-tier state. -/
theorem C10_witness :
    Session.isDemoMode ⟨"sid", "u", 100, 0, none⟩ = none ∧
      resolveDemoFlag ⟨"sid", "u", 100, 0, none⟩ = false :=
  (C10_durable_sessions_production_mode ⟨[], [⟨"sid", "u", 100, 0⟩]⟩ 50 "sid"
    ⟨"sid", "u", 100, 0, none⟩ (by decide)).2 (by decide)

/-- Claim C6 (amended statements below reuse this predicate): a row matches
the (user, kind, resource) tuple. -/
def aclTupleMatch (u : String) (rt : ResourceType) (rid : String)
    (e : AccessControl) : Bool :=
  e.userId == u && e.resourceType == rt && e.resourceId == rid

lemma aclCount_eq (tbl : List AccessControl) (u : String) (rt : ResourceType)
    (rid : String) :
    aclCount tbl u rt rid = (tbl.filter (aclTupleMatch u rt rid)).length := rfl

/-- Claim C6: on a table satisfying the UNIQUE constraint (at most one row
per tuple), granting the same (user, kind, resource) twice — with a fresh
random row id for the first insert — leaves exactly one row for that tuple,
and revoking a tuple that has no row is a no-op that leaves the table
unchanged. -/
theorem C6_grant_idempotent_revoke_noop (tbl : List AccessControl)
    (id1 id2 u : String) (rt : ResourceType) (rid : String) (t1 t2 : Nat)
    (hfresh : tbl.all (fun e => e.id != id1) = true)
    (hinv : aclCount tbl u rt rid ≤ 1) :
    aclCount (grantAccess (grantAccess tbl id1 u rt rid t1) id2 u rt rid t2)
        u rt rid = 1 ∧
    (aclCount tbl u rt rid = 0 → revokeAccess tbl u rt rid = tbl) := by
  constructor
  · by_cases hm : tbl.any (aclTupleMatch u rt rid) = true
    · obtain ⟨e, he, hme⟩ := List.any_eq_true.mp hm
      have hconf1 : tbl.any (fun x =>
          aclConflicts x ⟨id1, u, rt, rid, t1⟩) = true := by
        refine List.any_eq_true.mpr ⟨e, he, ?_⟩
        unfold aclConflicts
        unfold aclTupleMatch at hme
        simp only [hme, Bool.or_true]
      have hg1 : grantAccess tbl id1 u rt rid t1 = tbl := by
        unfold grantAccess
        rw [if_pos hconf1]
      have hconf2 : tbl.any (fun x =>
          aclConflicts x ⟨id2, u, rt, rid, t2⟩) = true := by
        refine List.any_eq_true.mpr ⟨e, he, ?_⟩
        unfold aclConflicts
        unfold aclTupleMatch at hme
        simp only [hme, Bool.or_true]
      have hg2 : grantAccess tbl id2 u rt rid t2 = tbl := by
        unfold grantAccess
        rw [if_pos hconf2]
      rw [hg1, hg2]
      have hmem : e ∈ tbl.filter (aclTupleMatch u rt rid) :=
        List.mem_filter.mpr ⟨he, hme⟩
      have hpos : 0 < (tbl.filter (aclTupleMatch u rt rid)).length :=
        List.length_pos.mpr (List.ne_nil_of_mem hmem)
      rw [aclCount_eq] at hinv ⊢
      omega
    · have hnone : ∀ x ∈ tbl, aclTupleMatch u rt rid x = false := by
        intro x hx
        have := List.any_eq_false.mp (Bool.eq_false_iff.mpr hm) x hx
        exact Bool.eq_false_iff.mpr this
      have hconf1 : tbl.any (fun x =>
          aclConflicts x ⟨id1, u, rt, rid, t1⟩) = false := by
        rw [List.any_eq_false]
        intro x hx
        have hid := List.all_eq_true.mp hfresh x hx
        have hmx := hnone x hx
        unfold aclConflicts
        unfold aclTupleMatch at hmx
        simp only [bne_iff_ne, ne_eq] at hid
        simp [hmx, hid]
      have hg1 : grantAccess tbl id1 u rt rid t1 = tbl ++ [⟨id1, u, rt, rid, t1⟩] := by
        unfold grantAccess
        rw [if_neg (by rw [hconf1]; simp)]
      have hconf2 : (tbl ++ [(⟨id1, u, rt, rid, t1⟩ : AccessControl)]).any
          (fun x => aclConflicts x ⟨id2, u, rt, rid, t2⟩) = true := by
        refine List.any_eq_true.mpr ⟨(⟨id1, u, rt, rid, t1⟩ : AccessControl),
          List.mem_append.mpr (Or.inr (by simp)), ?_⟩
        unfold aclConflicts
        simp
      have hg2 : grantAccess (tbl ++ [(⟨id1, u, rt, rid, t1⟩ : AccessControl)])
          id2 u rt rid t2 =
          tbl ++ [(⟨id1, u, rt, rid, t1⟩ : AccessControl)] := by
        unfold grantAccess
        rw [if_pos hconf2]
      rw [hg1, hg2, aclCount_eq, List.filter_append]
      rw [List.filter_eq_nil_iff.mpr (by
        intro a ha
        simp [hnone a ha])]
      simp [aclTupleMatch]
  · intro hzero
    rw [aclCount_eq, List.length_eq_zero, List.filter_eq_nil_iff] at hzero
    unfold revokeAccess
    rw [List.filter_eq_self]
    intro a ha
    have hfalse : aclTupleMatch u rt rid a = false :=
      Bool.eq_false_iff.mpr (hzero a ha)
    unfold aclTupleMatch at hfalse
    rw [hfalse]
    rfl

/-- Witness for C6: two grants of the same tuple on the empty table leave
one row; revoking from the empty table is a no-op. -/
theorem C6_witness :
    aclCount (grantAccess (grantAccess [] "i1" "u" ResourceType.device "d1" 0)
        "i2" "u" ResourceType.device "d1" 5) "u" ResourceType.device "d1" = 1 ∧
    revokeAccess [] "u" ResourceType.device "d1" = [] := by
  have h := C6_grant_idempotent_revoke_noop [] "i1" "i2" "u"
    ResourceType.device "d1" 0 5 (by decide) (by decide)
  exact ⟨h.1, h.2 (by decide)⟩

/-- Counterexample for C1: with only a room grant (u, room, r1) and no
direct device grant, the device authorization check denies access to a
device d1 of room r1 — hasAccess(u, device, d1) is false and
deviceACLMiddleware replies 403 — contradicting the claim that a room
grant makes the device-access check succeed. -/
theorem C1_counterexample :
    hasAccess [⟨"a1", "u", ResourceType.room, "r1", 0⟩] "u"
        ResourceType.device "d1" = false ∧
    deviceACLMiddleware false ⟨"u", "alice", Role.user, false⟩ "d1"
        [⟨"a1", "u", ResourceType.room, "r1", 0⟩] =
      some ⟨403, "Access denied", none⟩ := by
  constructor
  · rfl
  · rfl

/-- Claim C1 as amended: for a standard (non-admin) user outside demo mode
the device authorization check is exactly the direct device-grant test —
it passes iff hasAccess(u, device, d) holds, and otherwise replies 403;
room grants play no part in it. -/
theorem C1_device_check_is_direct_grant_only (u : ReqUser)
    (hrole : u.role = Role.user) (deviceId : String)
    (tbl : List AccessControl) :
    deviceACLMiddleware false u deviceId tbl =
      (if hasAccess tbl u.id ResourceType.device deviceId then none
       else some ⟨403, "Access denied", none⟩) := by
  unfold deviceACLMiddleware
  rw [hrole]
  rfl

/-- Witness for C1's amended theorem: a direct device grant passes the
check. -/
theorem C1_witness :
    deviceACLMiddleware false ⟨"u", "alice", Role.user, false⟩ "d1"
        [⟨"a1", "u", ResourceType.device, "d1", 0⟩] =
      (if hasAccess [⟨"a1", "u", ResourceType.device, "d1", 0⟩] "u"
          ResourceType.device "d1" then none
       else some ⟨403, "Access denied", none⟩) :=
  C1_device_check_is_direct_grant_only ⟨"u", "alice", Role.user, false⟩ rfl "d1"
    [⟨"a1", "u", ResourceType.device, "d1", 0⟩]

/-- Claim C9: with the must-change-password flag set, every request not
targeting the password-change endpoint is rejected with 403 and the
`requiresPasswordChange: true` marker — distinguishable from the
authentication middleware's rejections, which all carry 401 and no such
marker — the password-change endpoint itself passes, and a rejected
request never reaches the protected handler. -/
theorem C9_first_login_gate (u : ReqUser) (url : String)
    (hfl : u.firstLogin = true) (hurl : url ≠ "/api/auth/change-password") :
    firstLoginMiddleware (some u) url =
      some ⟨403, "Password change required", some true⟩ ∧
    firstLoginMiddleware (some u) "/api/auth/change-password" = none ∧
    handlerInvoked [firstLoginMiddleware (some u) url] = false ∧
    (∀ (cookie : Option String) (users : List ReqUser) (st : SessionState)
        (now t : Nat) (r : Reply) (st2 : SessionState),
      authMiddleware cookie users st now t = (Sum.inl r, st2) →
      r.code = 401 ∧ r.requiresPasswordChange = none) := by
  have hne : (url != "/api/auth/change-password") = true := bne_iff_ne.mpr hurl
  have h1 : firstLoginMiddleware (some u) url =
      some ⟨403, "Password change required", some true⟩ := by
    simp only [firstLoginMiddleware]
    rw [hfl, hne]
    rfl
  refine ⟨h1, ?_, ?_, ?_⟩
  · unfold firstLoginMiddleware
    simp
  · unfold handlerInvoked
    rw [h1]
    rfl
  · intro cookie users st now t r st2 h
    unfold authMiddleware at h
    split at h
    · injection h with h1 h2
      injection h1 with h1
      rw [← h1]
      exact ⟨rfl, rfl⟩
    · split at h
      next heq =>
        injection h with h1 h2
        injection h1 with h1
        rw [← h1]
        exact ⟨rfl, rfl⟩
      next session st1 heq =>
        split at h
        · injection h with h1 _
          exact absurd h1 (by simp)
        · split at h
          next hfind =>
            injection h with h1 h2
            injection h1 with h1
            rw [← h1]
            exact ⟨rfl, rfl⟩
          next user hfind =>
            injection h with h1 _
            exact absurd h1 (by simp)

section HubLemmas

lemma pongs_clients (ps : List Nat) :
    ∀ st : HubState, (pongs st ps).clients = st.clients := by
  induction ps with
  | nil => intro st; rfl
  | cons p rest ih =>
      intro st
      show (pongs (pongConn st p) rest).clients = st.clients
      rw [ih]
      rfl

lemma pongConn_cids (st : HubState) (p : Nat) :
    (pongConn st p).conns.map (·.cid) = st.conns.map (·.cid) := by
  show (st.conns.map (fun c =>
      if c.cid == p then { c with isAlive := true } else c)).map (fun c => c.cid) =
    st.conns.map (fun c => c.cid)
  rw [List.map_map]
  apply List.map_congr_left
  intro c _
  simp only [Function.comp]
  split <;> rfl

lemma pongs_cids (ps : List Nat) :
    ∀ st : HubState, (pongs st ps).conns.map (·.cid) = st.conns.map (·.cid) := by
  induction ps with
  | nil => intro st; rfl
  | cons p rest ih =>
      intro st
      show (pongs (pongConn st p) rest).conns.map (·.cid) = _
      rw [ih, pongConn_cids]

lemma pongs_mem (ps : List Nat) :
    ∀ (st : HubState) (x : Conn), x ∈ st.conns → x.cid ∉ ps →
      x ∈ (pongs st ps).conns := by
  induction ps with
  | nil => intro st x hx _; exact hx
  | cons p rest ih =>
      intro st x hx hnp
      show x ∈ (pongs (pongConn st p) rest).conns
      have hne : x.cid ≠ p := fun h => hnp (h ▸ List.mem_cons_self p rest)
      refine ih (pongConn st p) x ?_ (fun h => hnp (List.mem_cons_of_mem p h))
      refine List.mem_map.mpr ⟨x, hx, ?_⟩
      rw [if_neg (by simpa using hne)]

lemma sweep_conns_cids (st : HubState) :
    (sweep st).conns.map (·.cid) =
      (st.conns.filter (fun c => c.isAlive)).map (·.cid) := by
  show ((st.conns.filter (fun c => c.isAlive)).map
      (fun c => { c with isAlive := false })).map (fun c => c.cid) =
    (st.conns.filter (fun c => c.isAlive)).map (fun c => c.cid)
  rw [List.map_map]
  apply List.map_congr_left
  intro c _
  rfl

lemma sweep_cids_nodup (st : HubState)
    (h : (st.conns.map (·.cid)).Nodup) : ((sweep st).conns.map (·.cid)).Nodup := by
  rw [sweep_conns_cids]
  exact ((List.filter_sublist st.conns).map (·.cid)).nodup h

lemma sweep_conns_not_alive (st : HubState) :
    ∀ x ∈ (sweep st).conns, x.isAlive = false := by
  intro x hx
  obtain ⟨c, _, hc⟩ := List.mem_map.mp hx
  rw [← hc]

lemma map_fst_map_values {α : Type} (m : List (String × α)) (f : α → α) :
    ((m.map (fun p => (p.1, f p.2))).map (·.1)) = m.map (·.1) := by
  rw [List.map_map]
  rfl

lemma sweep_clients_keys_nodup (st : HubState)
    (h : (st.clients.map (·.1)).Nodup) :
    ((sweep st).clients.map (·.1)).Nodup := by
  show (((st.clients.map (fun p =>
      (p.1, p.2.filter (fun cid => !(deadCids st).contains cid)))).filter
      (fun p => !p.2.isEmpty)).map (fun p => p.1)).Nodup
  have hsub : ((st.clients.map (fun p =>
      (p.1, p.2.filter (fun cid => !(deadCids st).contains cid)))).filter
      (fun p => !p.2.isEmpty)).Sublist
      (st.clients.map (fun p =>
      (p.1, p.2.filter (fun cid => !(deadCids st).contains cid)))) :=
    List.filter_sublist _
  refine (hsub.map (fun p : String × List Nat => p.1)).nodup ?_
  rw [map_fst_map_values]
  exact h

lemma sweep_clients_get_some (st : HubState) (u : String) (v : List Nat)
    (h : mapGet st.clients u = some v)
    (hne : (v.filter (fun cid => !(deadCids st).contains cid)).isEmpty = false) :
    mapGet (sweep st).clients u =
      some (v.filter (fun cid => !(deadCids st).contains cid)) := by
  have h2 : mapGet (st.clients.map (fun p =>
      (p.1, p.2.filter (fun cid => !(deadCids st).contains cid)))) u =
      some (v.filter (fun cid => !(deadCids st).contains cid)) := by
    rw [mapGet_map_values, h]
    rfl
  refine mapGet_filter_value_kept _ u _ (fun l => !l.isEmpty) h2 ?_
  show (!(v.filter (fun cid => !(deadCids st).contains cid)).isEmpty) = true
  rw [hne]
  rfl

lemma sweep_clients_get_dropped (st : HubState) (u : String) (v : List Nat)
    (hkeys : (st.clients.map (·.1)).Nodup)
    (h : mapGet st.clients u = some v)
    (hemp : (v.filter (fun cid => !(deadCids st).contains cid)).isEmpty = true) :
    mapGet (sweep st).clients u = none := by
  have h2 : mapGet (st.clients.map (fun p =>
      (p.1, p.2.filter (fun cid => !(deadCids st).contains cid)))) u =
      some (v.filter (fun cid => !(deadCids st).contains cid)) := by
    rw [mapGet_map_values, h]
    rfl
  refine mapGet_filter_value_dropped _ u _ (fun l => !l.isEmpty) ?_ h2 ?_
  · rw [map_fst_map_values]
    exact hkeys
  · show (!(v.filter (fun cid => !(deadCids st).contains cid)).isEmpty) = false
    rw [hemp]
    rfl

lemma sweep_clients_get_none (st : HubState) (u : String)
    (h : mapGet st.clients u = none) :
    mapGet (sweep st).clients u = none := by
  apply mapGet_filter_none
  rw [mapGet_map_values, h]
  rfl

lemma mem_deadCids (st : HubState) (x : Conn) (hx : x ∈ st.conns)
    (hdead : x.isAlive = false) : x.cid ∈ deadCids st := by
  refine List.mem_map.mpr ⟨x, List.mem_filter.mpr ⟨hx, by rw [hdead]; rfl⟩, rfl⟩

lemma not_mem_deadCids (st : HubState) (c : Conn)
    (hnod : (st.conns.map (·.cid)).Nodup) (hc : c ∈ st.conns)
    (halive : c.isAlive = true) : ¬ c.cid ∈ deadCids st := by
  intro hmem
  obtain ⟨x, hxf, hcid⟩ := List.mem_map.mp hmem
  obtain ⟨hxconns, hxdead⟩ := List.mem_filter.mp hxf
  have hxc : x = c := List.inj_on_of_nodup_map hnod hxconns hc hcid
  rw [hxc, halive] at hxdead
  exact absurd hxdead (by simp)

end HubLemmas

/-- Claim C3: a device-update broadcast issued with ephemeral flag b is
delivered exactly to the open connections whose ephemeral flag equals b —
a production broadcast never reaches an ephemeral connection and vice
versa, even for connections of the same user. -/
theorem C3_broadcast_mode_isolation (st : HubState) (b : Bool)
    (hnod : (st.conns.map (·.cid)).Nodup) (c : Conn) (hc : c ∈ st.conns) :
    c.cid ∈ broadcastDeviceUpdate st b ↔
      (c.isDemoMode = b ∧ c.readyState = ReadyState.OPEN) := by
  unfold broadcastDeviceUpdate
  constructor
  · intro hmem
    obtain ⟨c2, hc2mem, hc2cid⟩ := List.mem_map.mp hmem
    obtain ⟨hc2conns, hc2pred⟩ := List.mem_filter.mp hc2mem
    have heq : c2 = c := List.inj_on_of_nodup_map hnod hc2conns hc hc2cid
    rw [heq] at hc2pred
    simp only [Bool.and_eq_true, beq_iff_eq] at hc2pred
    exact hc2pred
  · rintro ⟨h1, h2⟩
    exact List.mem_map.mpr ⟨c, List.mem_filter.mpr ⟨hc, by simp [h1, h2]⟩, rfl⟩

/-- Witness for C3: two open connections of the same user, one production
and one ephemeral; the production connection receives the production
broadcast and not the ephemeral one. -/
theorem C3_witness :
    (1 ∈ broadcastDeviceUpdate
        ⟨[⟨1, "u", "alice", true, false, ReadyState.OPEN⟩,
          ⟨2, "u", "alice", true, true, ReadyState.OPEN⟩], [("u", [1, 2])]⟩ false ↔
      ((false : Bool) = false ∧ ReadyState.OPEN = ReadyState.OPEN)) ∧
    (1 ∈ broadcastDeviceUpdate
        ⟨[⟨1, "u", "alice", true, false, ReadyState.OPEN⟩,
          ⟨2, "u", "alice", true, true, ReadyState.OPEN⟩], [("u", [1, 2])]⟩ true ↔
      ((false : Bool) = true ∧ ReadyState.OPEN = ReadyState.OPEN)) :=
  ⟨C3_broadcast_mode_isolation _ false (by decide)
      ⟨1, "u", "alice", true, false, ReadyState.OPEN⟩ (by decide),
   C3_broadcast_mode_isolation _ true (by decide)
      ⟨1, "u", "alice", true, false, ReadyState.OPEN⟩ (by decide)⟩

/-- Claim C8: a registered connection that answers no liveness probe — no
pong for it in either inter-sweep batch — survives the first sweep still
registered, is terminated and removed from the per-user registry at the
second sweep (hence by the third), taking its owning user's registry entry
with it when it was the last connection; a broadcast-to-user afterwards
reaches zero connections, both right after removal and after a further
sweep. -/
theorem C8_silent_connection_reaped (st : HubState) (c : Conn) (u : String)
    (ps1 ps2 : List Nat) (hc : c ∈ st.conns) (halive : c.isAlive = true)
    (hu : c.userId = u) (hreg : mapGet st.clients u = some [c.cid])
    (hnodc : (st.conns.map (·.cid)).Nodup)
    (hnodk : (st.clients.map (·.1)).Nodup) (hp1 : c.cid ∉ ps1) :
    mapGet (pongs (sweep st) ps1).clients u = some [c.cid] ∧
    (pongs (sweep (pongs (sweep st) ps1)) ps2).conns.all
      (fun x => x.cid != c.cid) = true ∧
    mapGet (pongs (sweep (pongs (sweep st) ps1)) ps2).clients u = none ∧
    broadcastToUser (pongs (sweep (pongs (sweep st) ps1)) ps2) u = [] ∧
    mapGet (sweep (pongs (sweep (pongs (sweep st) ps1)) ps2)).clients u = none ∧
    broadcastToUser (sweep (pongs (sweep (pongs (sweep st) ps1)) ps2)) u = [] := by
  have hnotdead : ¬ c.cid ∈ deadCids st := not_mem_deadCids st c hnodc hc halive
  have hcontains : (deadCids st).contains c.cid = false := by
    simpa using hnotdead
  have hfiltered : ([c.cid].filter (fun cid => !(deadCids st).contains cid)) =
      [c.cid] := by
    rw [List.filter_cons, hcontains]
    rfl
  -- after the first sweep the registry entry for u is still [c.cid]
  have hreg1 : mapGet (sweep st).clients u = some [c.cid] := by
    have := sweep_clients_get_some st u [c.cid] hreg (by rw [hfiltered]; rfl)
    rwa [hfiltered] at this
  -- the silent connection survives the first sweep, marked not-alive
  have hc1 : ({ c with isAlive := false } : Conn) ∈ (sweep st).conns :=
    List.mem_map.mpr ⟨c, List.mem_filter.mpr ⟨hc, halive⟩, rfl⟩
  have hreg1p : mapGet (pongs (sweep st) ps1).clients u = some [c.cid] := by
    rw [pongs_clients]
    exact hreg1
  have hc1p : ({ c with isAlive := false } : Conn) ∈ (pongs (sweep st) ps1).conns :=
    pongs_mem ps1 (sweep st) _ hc1 hp1
  -- at the second sweep the connection id is dead
  have hdead2 : c.cid ∈ deadCids (pongs (sweep st) ps1) :=
    mem_deadCids _ { c with isAlive := false } hc1p rfl
  have hcontains2 : (deadCids (pongs (sweep st) ps1)).contains c.cid = true := by
    simpa using hdead2
  have hempty2 : ([c.cid].filter (fun cid =>
      !(deadCids (pongs (sweep st) ps1)).contains cid)).isEmpty = true := by
    rw [List.filter_cons, hcontains2]
    rfl
  have hkeys1 : ((pongs (sweep st) ps1).clients.map (·.1)).Nodup := by
    rw [pongs_clients]
    exact sweep_clients_keys_nodup st hnodk
  have hreg2 : mapGet (sweep (pongs (sweep st) ps1)).clients u = none :=
    sweep_clients_get_dropped _ u [c.cid] hkeys1 hreg1p hempty2
  have hreg2p : mapGet (pongs (sweep (pongs (sweep st) ps1)) ps2).clients u = none := by
    rw [pongs_clients]
    exact hreg2
  -- the connection is gone from the server's client set
  have hcids1 : ((pongs (sweep st) ps1).conns.map (·.cid)).Nodup := by
    rw [pongs_cids]
    exact sweep_cids_nodup st hnodc
  have hgone2 : (sweep (pongs (sweep st) ps1)).conns.all
      (fun x => x.cid != c.cid) = true := by
    rw [List.all_eq_true]
    intro x hx
    obtain ⟨y, hyf, hyx⟩ := List.mem_map.mp hx
    obtain ⟨hyconns, hyalive⟩ := List.mem_filter.mp hyf
    rw [bne_iff_ne]
    intro hxc
    have hyc : y = { c with isAlive := false } := by
      refine List.inj_on_of_nodup_map hcids1 hyconns hc1p ?_
      rw [← hxc, ← hyx]
    rw [hyc] at hyalive
    exact absurd hyalive (by simp)
  have hgone2p : (pongs (sweep (pongs (sweep st) ps1)) ps2).conns.all
      (fun x => x.cid != c.cid) = true := by
    rw [List.all_eq_true]
    intro x hx
    have hxcid : x.cid ∈ (pongs (sweep (pongs (sweep st) ps1)) ps2).conns.map (·.cid) :=
      List.mem_map.mpr ⟨x, hx, rfl⟩
    rw [pongs_cids] at hxcid
    obtain ⟨y, hy, hyx⟩ := List.mem_map.mp hxcid
    have := List.all_eq_true.mp hgone2 y hy
    rw [bne_iff_ne] at this ⊢
    rw [← hyx]
    exact this
  have hbc2 : broadcastToUser (pongs (sweep (pongs (sweep st) ps1)) ps2) u = [] := by
    unfold broadcastToUser
    rw [hreg2p]
  have hreg3 : mapGet (sweep (pongs (sweep (pongs (sweep st) ps1)) ps2)).clients u = none :=
    sweep_clients_get_none _ u hreg2p
  have hbc3 : broadcastToUser (sweep (pongs (sweep (pongs (sweep st) ps1)) ps2)) u = [] := by
    unfold broadcastToUser
    rw [hreg3]
  exact ⟨hreg1p, hgone2p, hreg2p, hbc2, hreg3, hbc3⟩

/-- Witness for C8: one open, alive connection of user u, no pongs; it is
gone after two sweeps and the broadcast delivers to nobody. -/
theorem C8_witness :
    mapGet (pongs (sweep ⟨[⟨1, "u", "alice", true, false, ReadyState.OPEN⟩],
        [("u", [1])]⟩) []).clients "u" = some [1] ∧
    (pongs (sweep (pongs (sweep ⟨[⟨1, "u", "alice", true, false, ReadyState.OPEN⟩],
        [("u", [1])]⟩) [])) []).conns.all (fun x => x.cid != 1) = true ∧
    mapGet (pongs (sweep (pongs (sweep ⟨[⟨1, "u", "alice", true, false, ReadyState.OPEN⟩],
        [("u", [1])]⟩) [])) []).clients "u" = none ∧
    broadcastToUser (pongs (sweep (pongs (sweep ⟨[⟨1, "u", "alice", true, false,
        ReadyState.OPEN⟩], [("u", [1])]⟩) [])) []) "u" = [] ∧
    mapGet (sweep (pongs (sweep (pongs (sweep ⟨[⟨1, "u", "alice", true, false,
        ReadyState.OPEN⟩], [("u", [1])]⟩) [])) [])).clients "u" = none ∧
    broadcastToUser (sweep (pongs (sweep (pongs (sweep ⟨[⟨1, "u", "alice", true, false,
        ReadyState.OPEN⟩], [("u", [1])]⟩) [])) [])) "u" = [] :=
  C8_silent_connection_reaped ⟨[⟨1, "u", "alice", true, false, ReadyState.OPEN⟩],
      [("u", [1])]⟩ ⟨1, "u", "alice", true, false, ReadyState.OPEN⟩ "u" [] []
    (by decide) rfl rfl (by decide) (by decide) (by decide) (by decide)

/-- Witness for C9 at a concrete user, URL, and authentication rejection. -/
theorem C9_witness :
    firstLoginMiddleware (some ⟨"u", "alice", Role.user, true⟩) "/api/devices" =
      some ⟨403, "Password change required", some true⟩ ∧
    firstLoginMiddleware (some ⟨"u", "alice", Role.user, true⟩)
      "/api/auth/change-password" = none ∧
    handlerInvoked [firstLoginMiddleware (some ⟨"u", "alice", Role.user, true⟩)
      "/api/devices"] = false ∧
    Reply.code ⟨401, "Not authenticated", none⟩ = 401 ∧
    Reply.requiresPasswordChange ⟨401, "Not authenticated", none⟩ = none :=
  have h := C9_first_login_gate ⟨"u", "alice", Role.user, true⟩ "/api/devices" rfl
    (by decide)
  ⟨h.1, h.2.1, h.2.2.1,
    h.2.2.2 none [] ⟨[], []⟩ 0 30 ⟨401, "Not authenticated", none⟩ ⟨[], []⟩ rfl⟩

lemma runReconnects_eq (n : Nat) :
    runReconnects n = ⟨min n 10, 1000, true⟩ := by
  induction n with
  | zero => rfl
  | succ n ih =>
      show (scheduleReconnect (runReconnects n)).1 = _
      rw [ih]
      unfold scheduleReconnect
      by_cases h : maxReconnectAttempts ≤ min n 10
      · have h10 : 10 ≤ n := by
          unfold maxReconnectAttempts at h
          omega
        rw [if_neg (by simp), if_pos h]
        have : min n 10 = min (n + 1) 10 := by omega
        rw [this]
      · have hlt : n < 10 := by
          unfold maxReconnectAttempts at h
          omega
        rw [if_neg (by simp), if_neg h]
        show (⟨min n 10 + 1, 1000, true⟩ : WSClient) = _
        have : min n 10 + 1 = min (n + 1) 10 := by omega
        rw [this]

/-- Counterexample for C7: the reconnect counter is incremented before the
delay is computed, so the very first scheduled reconnect delay is
min(1000 * 1.5^1, 30000) = 1500 ms, not the 1 second the claim states. -/
theorem C7_counterexample :
    attemptDelay 0 = some 1500 ∧ attemptDelay 0 ≠ some 1000 := by
  have h : attemptDelay 0 = some 1500 := by
    unfold attemptDelay runReconnects scheduleReconnect initialClient
    norm_num [maxReconnectAttempts, maxReconnectDelay]
  refine ⟨h, ?_⟩
  rw [h]
  intro hcontra
  have : (1500 : ℚ) = 1000 := by injection hcontra
  norm_num at this

/-- Claim C7 as amended: after an unexpected close the n-th reconnect
attempt (n = 1..10) is scheduled after min(1000 * 1.5^n, 30000) ms — so the
first delay is 1.5 s and each subsequent delay is 1.5 times the previous
until the 30-second cap; no attempt is scheduled past the tenth; every
scheduled delay respects the 30-second cap; and a successful reconnect
(onopen) resets the attempt counter to 0 and the base delay to 1000 ms. -/
theorem C7_backoff_amended :
    (∀ n, n < 10 →
      attemptDelay n = some (min (1000 * (3 / 2 : ℚ) ^ (n + 1)) 30000)) ∧
    (∀ n, 10 ≤ n → attemptDelay n = none) ∧
    (∀ n d, attemptDelay n = some d → d ≤ 30000) ∧
    (∀ cl : WSClient, (onOpenReset cl).reconnectAttempts = 0 ∧
      (onOpenReset cl).reconnectDelay = 1000) := by
  have h1 : ∀ n, n < 10 →
      attemptDelay n = some (min (1000 * (3 / 2 : ℚ) ^ (n + 1)) 30000) := by
    intro n hn
    unfold attemptDelay
    rw [runReconnects_eq]
    unfold scheduleReconnect
    rw [if_neg (by simp)]
    rw [if_neg (by show ¬ maxReconnectAttempts ≤ min n 10
                   unfold maxReconnectAttempts
                   omega)]
    have hmin : min n 10 = n := Nat.min_eq_left (Nat.le_of_lt hn)
    rw [hmin]
    rfl
  have h2 : ∀ n, 10 ≤ n → attemptDelay n = none := by
    intro n hn
    unfold attemptDelay
    rw [runReconnects_eq]
    unfold scheduleReconnect
    rw [if_neg (by simp)]
    rw [if_pos (by show maxReconnectAttempts ≤ min n 10
                   unfold maxReconnectAttempts
                   omega)]
  refine ⟨h1, h2, ?_, fun cl => ⟨rfl, rfl⟩⟩
  intro n d hd
  by_cases hn : n < 10
  · rw [h1 n hn] at hd
    injection hd with hd
    rw [← hd]
    exact min_le_right _ _
  · rw [h2 n (by omega)] at hd
    exact absurd hd (by simp)

/-- Witness for C7's amended theorem: the first delay evaluates to
min(1000 * 1.5, 30000) ms. -/
theorem C7_witness :
    attemptDelay 0 = some (min (1000 * (3 / 2 : ℚ) ^ (0 + 1)) 30000) :=
  C7_backoff_amended.1 0 (by norm_num)

end NMHome
